import Mathlib

/-!
Verification of the nb-runner client: the guide example strategy, the
backtest request construction, the run-system response handling, the
report persistence, and the post-termination position query, embedded
from the notebooks and the strategy guide of the repository.
-/

namespace NbRunner

/-! ### Price data and the guide example strategy (strategy.py in the guide) -/

/-- A minute-frequency price dataframe: columns are symbols, each row holds
one closing price per symbol. -/
structure PriceFrame where
  symbols : List String
  rows : List (List ℚ)
deriving DecidableEq

/-- The last row of the frame, df.iloc[-1]. -/
def PriceFrame.lastRow (df : PriceFrame) : List ℚ :=
  df.rows.getD (df.rows.length - 1) []

/-- The row `period` positions from the end, df.iloc[-period]. -/
def PriceFrame.rowFromEnd (df : PriceFrame) (period : Nat) : List ℚ :=
  df.rows.getD (df.rows.length - period) []

/-- The returns series of the guide strategy:
returns = df.iloc[-1] / df.iloc[-period] - 1, one value per symbol column. -/
def seriesReturns (df : PriceFrame) (period : Nat) : List (String × ℚ) :=
  df.symbols.zip (((df.lastRow).zip (df.rowFromEnd period)).map (fun lp => lp.1 / lp.2 - 1))

/-- Descending order on return values, as in sort_values with ascending set to false. -/
def retGE (a b : String × ℚ) : Prop := b.2 ≤ a.2

instance : DecidableRel retGE := fun a b => inferInstanceAs (Decidable (b.2 ≤ a.2))

instance : IsTotal (String × ℚ) retGE := ⟨fun a b => le_total b.2 a.2⟩

instance : IsTrans (String × ℚ) retGE := ⟨fun _ _ _ h1 h2 => h2.trans h1⟩

/-- The strategy_config dictionary used by the guide example strategy. -/
structure GuideStrategyConfig where
  maximum_candidates : Nat
  minutes : List Nat
deriving DecidableEq

/-- The config_dict wrapper the system passes to the strategy. -/
structure ConfigDict where
  strategy_config : GuideStrategyConfig
deriving DecidableEq

/-- The guide example strategy: take the first entry of minutes as the period,
rank symbols by simple return descending, return the head and tail of the
ranking (top and bottom maximum_candidates symbols). -/
def strategy (df : PriceFrame) (config_dict : ConfigDict) : List String × List String :=
  let period := config_dict.strategy_config.minutes.headD 0
  let maximum_candidates := config_dict.strategy_config.maximum_candidates
  let sorted_returns := (seriesReturns df period).insertionSort retGE
  ((sorted_returns.take maximum_candidates).map Prod.fst,
    (sorted_returns.drop (sorted_returns.length - maximum_candidates)).map Prod.fst)

/-- Well-formed frame: at least one row, every row as wide as the symbol list,
and no duplicate symbol columns. -/
def PriceFrame.WF (df : PriceFrame) : Prop :=
  df.rows ≠ [] ∧ (∀ r ∈ df.rows, r.length = df.symbols.length) ∧ df.symbols.Nodup

instance (df : PriceFrame) : Decidable df.WF := by
  unfold PriceFrame.WF
  infer_instance

/-- A small concrete frame used to instantiate hypotheses of the theorems. -/
def demoFrame : PriceFrame :=
  { symbols := ["BTCUSDT", "ETHUSDT"], rows := [[100, 10], [110, 9]] }

/-- A small concrete config_dict for the guide strategy. -/
def demoCfg : ConfigDict :=
  { strategy_config := { maximum_candidates := 1, minutes := [2] } }

/-! ### run-system response handling (run-system cell of the trade notebook) -/

/-- The error wrapper nested under the message key of a run-system response. -/
structure RunSystemMessage where
  message : Option String
  session_id : Option String
  dashboard_url : Option String
deriving DecidableEq

/-- A run-system response: flat session fields, or an error wrapper under message. -/
structure RunSystemResponse where
  session_id : Option String
  dashboard_url : Option String
  message : Option RunSystemMessage
deriving DecidableEq

/-- The session record the cell reports: session id plus dashboard reference. -/
structure SessionRecord where
  session_id : String
  dashboard : String
deriving DecidableEq

/-- run-system cell: read session_id and dashboard_url from the top level inside
try; on any missing key fall back to the except branch, which reads the error
text, the session id and the dashboard reference nested under message. A missing
key in the fallback is an uncaught KeyError. -/
def extractSession (r : RunSystemResponse) : Except String SessionRecord :=
  match r.session_id, r.dashboard_url with
  | some sid, some dash => .ok { session_id := sid, dashboard := dash }
  | _, _ =>
    match r.message with
    | none => .error "KeyError"
    | some m =>
      match m.message, m.session_id, m.dashboard_url with
      | some _, some sid, some dash => .ok { session_id := sid, dashboard := dash }
      | _, _, _ => .error "KeyError"

/-- A concrete flat-shaped run-system response. -/
def flatResponse : RunSystemResponse :=
  { session_id := some "sid-1", dashboard_url := some "https://dash", message := none }

/-! ### Post-termination position query (all_positions in the trade notebook) -/

/-- One position record of the response, an opaque JSON object. -/
abbrev PositionRow := List (String × String)

/-- Uppercasing as Python upper acts on the ASCII margin coin strings. -/
def asciiUpper (s : String) : String := String.mk (s.data.map Char.toUpper)

/-- The single POST request all_positions issues. -/
structure PositionsRequest where
  url : String
  payload_user_key : String
  productType : String
  marginCoin : String
deriving DecidableEq

/-- Everything all_positions does: the requests it sends, the messages it
prints, and the dataframe it returns. -/
structure AllPositionsRun where
  requests : List PositionsRequest
  printed : List String
  df : List PositionRow
deriving DecidableEq

/-- all_positions: the URL and the payload user key are built from the
module-level USER_KEY, never from the user_key parameter; marginCoin is
uppercased into the payload; the dataframe is built from the response data
verbatim and a success message is printed exactly when it is empty. -/
def all_positions (USER_KEY : String) (user_key productType marginCoin : String)
    (responseData : List PositionRow) : AllPositionsRun :=
  { requests := [⟨"https://bitgettrader.fin.cloud.ainode.ai/" ++ USER_KEY
        ++ "/future/position/all-positions", USER_KEY, productType, asciiUpper marginCoin⟩],
    printed := if responseData.isEmpty then ["Everything has been liquidated"] else [],
    df := responseData }

/-! ### Report persistence (run backtest cell of the backtest notebook) -/

/-- The fields of a successful backtest response the report handling reads. -/
structure BacktestResponse where
  report_type : Option String
  html_content : Option String
  logs : Option String
  stdout : Option String
deriving DecidableEq

/-- One file written to disk. -/
structure FileWrite where
  dir : String
  filename : String
  content : String
deriving DecidableEq

/-- The filesystem effects of the report handling. -/
structure ReportOutcome where
  madeDir : Bool
  writes : List FileWrite
deriving DecidableEq

/-- Report handling of the run backtest cell: when report_type is html and
html_content is truthy, create the output directory if missing and write one
report file named from the timestamp and the strategy name; in every other
branch write nothing. -/
def handleReport (path strategy_name nowStr : String) (dirExists : Bool)
    (resp : BacktestResponse) : ReportOutcome :=
  if resp.report_type = some "html" then
    match resp.html_content with
    | some h =>
      if h = "" then { madeDir := false, writes := [] }
      else
        { madeDir := !dirExists,
          writes := [⟨path, nowStr ++ "_" ++ strategy_name ++ "_backtest_report.html", h⟩] }
    | none => { madeDir := false, writes := [] }
  else { madeDir := false, writes := [] }

/-- A concrete successful html backtest response. -/
def htmlResponse : BacktestResponse :=
  { report_type := some "html", html_content := some "<html>ok</html>",
    logs := some "", stdout := some "" }

/-! ### Equal weight allocation (remote engine, described by the config template) -/

/-- Modelled from the spec: the WeightAllocator runs on the remote engine and its
code is not under src; the config template only documents the equal method as
weight 1/n over the symbol universe. -/
def equalAllocate (symbols : List String) : List (String × ℚ) :=
  symbols.map (fun s => (s, 1 / (symbols.length : ℚ)))

/-! ### Backtest request construction (config and run backtest cells) -/

/-- The rebalancing_config dictionary of the config cell. -/
structure RebalancingConfig where
  rebalancing_interval_hours : Int
  minimum_candidates : Int
deriving DecidableEq

/-- The strategy_config dictionary of the config cell. -/
structure StrategyParams where
  long_maximum_candidates : Int
  short_maximum_candidates : Int
  minutes : List Int
deriving DecidableEq

/-- The strategy_config_params dictionary sent to the backtest endpoint. -/
structure StrategyConfigParams where
  rebalancing_config : RebalancingConfig
  strategy_config : StrategyParams
deriving DecidableEq

/-- Everything the config cell defines that feeds the request payload. -/
structure BacktestSettings where
  strategy_name : String
  strategy_config_params : StrategyConfigParams
  start_date : String
  end_date : String
  lookback_min : Int
  initial_capital : ℚ
  leverage : ℚ
  symbols : List String
  calendar : String
  frequency : String
  weight_method : String
  custom_weights : List (String × ℚ)
  generate_report_flag : Bool
deriving DecidableEq

/-- The JSON payload the run backtest cell posts. -/
structure BacktestPayload where
  data_apikey : String
  strategy : String
  strategy_config : StrategyConfigParams
  start_date : String
  end_date : String
  lookback_minutes : Int
  capital : ℚ
  leverage : ℚ
  symbols : List String
  calendar : String
  frequency : String
  weight_method : String
  generate_pyfolio_report : Bool
  custom_weights : Option (List (String × ℚ))
deriving DecidableEq

/-- Request construction of the run backtest cell: build the payload from the
config cell values; when weight_method is custom and custom_weights is empty,
raise ValueError before posting; when custom and non-empty, attach the
weights as given. An ok value is posted over the network; an error value means
no network request was made. -/
def buildBacktestRequest (DATA_KEY : String) (s : BacktestSettings) :
    Except String BacktestPayload :=
  let base : BacktestPayload :=
    { data_apikey := DATA_KEY,
      strategy := s.strategy_name ++ ".py",
      strategy_config := s.strategy_config_params,
      start_date := s.start_date,
      end_date := s.end_date,
      lookback_minutes := s.lookback_min,
      capital := s.initial_capital,
      leverage := s.leverage,
      symbols := s.symbols,
      calendar := s.calendar,
      frequency := s.frequency,
      weight_method := s.weight_method,
      generate_pyfolio_report := s.generate_report_flag,
      custom_weights := none }
  if s.weight_method = "custom" then
    if s.custom_weights = [] then
      .error "custom_weights is required if weight_method is custom"
    else .ok { base with custom_weights := some s.custom_weights }
  else .ok base

/-- True when the cell reaches the network request, false when the ValueError
fires first. -/
def acceptsLocally (DATA_KEY : String) (s : BacktestSettings) : Bool :=
  match buildBacktestRequest DATA_KEY s with
  | .ok _ => true
  | .error _ => false

/-- The validity condition the spec claims for custom weights, written from the
words of the spec for comparison with the code: weights present, every key in
the symbol universe, every value non-negative, sum within 1e-6 of one. -/
def specCustomWeightsOK (symbols : List String) (cw : List (String × ℚ)) : Bool :=
  decide (cw ≠ []) &&
    cw.all (fun p => symbols.contains p.1 && decide (0 ≤ p.2)) &&
    decide (|(cw.map Prod.snd).sum - 1| ≤ 1 / 1000000)

/-- The allowed rebalancing intervals named by the spec. -/
def allowedIntervals : List Int := [6, 12, 24, 72]

/-- The config cell values of the backtest notebook, with the fields under test
made adversarial: a custom weight key outside the universe whose weights sum to
97/100, and a rebalancing interval outside the allowed set. -/
def cexSettings : BacktestSettings :=
  { strategy_name := "multi_period_momentum",
    strategy_config_params :=
      { rebalancing_config := { rebalancing_interval_hours := 5, minimum_candidates := 0 },
        strategy_config :=
          { long_maximum_candidates := 5, short_maximum_candidates := 5,
            minutes := [60, 180, 360] } },
    start_date := "2025-03-10",
    end_date := "2025-03-20",
    lookback_min := 360,
    initial_capital := 200000,
    leverage := 10,
    symbols := ["BTCUSDT", "ETHUSDT", "XRPUSDT"],
    calendar := "24/7",
    frequency := "minute",
    weight_method := "custom",
    custom_weights := [("FOOUSDT", 97 / 100)],
    generate_report_flag := true }

/-- The same settings with the equal weight method, keeping the out-of-set
rebalancing interval. -/
def cexIntervalSettings : BacktestSettings :=
  { cexSettings with weight_method := "equal", custom_weights := [] }

/-- Replace only the rebalancing interval of a settings bundle. -/
def setInterval (s : BacktestSettings) (h : Int) : BacktestSettings :=
  { s with strategy_config_params :=
      { s.strategy_config_params with rebalancing_config :=
          { s.strategy_config_params.rebalancing_config with
              rebalancing_interval_hours := h } } }

/-! ### Strategy upload (upload strategy cell of the backtest notebook) -/

/-- A strategy artifact: the file name and the behavior of the strategy
callable the file contains. -/
structure StrategyFile where
  name : String
  behavior : PriceFrame → ConfigDict → List String × List String

/-- The multipart POST the upload strategy cell issues. -/
structure UploadRequest where
  url : String
  tradeType : String
  file : StrategyFile

/-- upload strategy cell: open the strategy file and post it with the
tradeType parameter. The cell never calls the strategy and has no failure
branch of its own: every artifact is submitted. -/
def uploadStrategyCell (rootUrl tradeType : String) (f : StrategyFile) : UploadRequest :=
  { url := rootUrl ++ "upload/strategy/", tradeType := tradeType, file := f }

/-- The strategy contract the spec claims is checked before submission,
written from the words of the spec: both lists inside the declared universe
and disjoint from each other. -/
def specContractOK (uni : List String) (out : List String × List String) : Bool :=
  out.1.all (fun x => uni.contains x) && out.2.all (fun x => uni.contains x) &&
    out.1.all (fun x => !out.2.contains x)

/-- A strategy whose long and short lists overlap on BTCUSDT. -/
def overlappingStrategy : StrategyFile :=
  { name := "multi_period_momentum",
    behavior := fun _ _ => (["BTCUSDT"], ["BTCUSDT"]) }

/-! ### Supporting lemmas -/

/-- Sum of a constant map over a list. -/
theorem sum_map_const {α : Type} (l : List α) (c : ℚ) :
    (l.map (fun _ => c)).sum = (l.length : ℚ) * c := by
  induction l with
  | nil => simp
  | cons a t ih =>
    simp only [List.map_cons, List.sum_cons, ih, List.length_cons]
    push_cast
    ring

/-- Head and tail segments of a duplicate-free list: their lengths are
min k n and they are disjoint exactly when the segments cannot overlap. -/
theorem take_drop_segments {α : Type} (l : List α) (k : Nat) (hnd : l.Nodup) :
    (l.take k).length = min k l.length ∧
    (l.drop (l.length - k)).length = min k l.length ∧
    (List.Disjoint (l.take k) (l.drop (l.length - k))
      ↔ 2 * min k l.length ≤ l.length) := by
  refine ⟨by simp [List.length_take], by simp [List.length_drop]; omega, ?_, ?_⟩
  · intro hdisj
    by_contra hgt
    push_neg at hgt
    have hin : l.length - min k l.length < l.length := by omega
    have hlt2 : l.length - min k l.length < (l.take k).length := by
      simp [List.length_take]
      omega
    have hx1 : l[l.length - min k l.length] ∈ l.take k := by
      have he : (l.take k)[l.length - min k l.length] = l[l.length - min k l.length] :=
        List.getElem_take l
      exact he ▸ List.getElem_mem hlt2
    have hx2 : l[l.length - min k l.length] ∈ l.drop (l.length - k) := by
      have hd : l.length - k = l.length - min k l.length := by omega
      rw [hd]
      have hne2 : l.drop (l.length - min k l.length) ≠ [] := by
        apply List.ne_nil_of_length_pos
        simp [List.length_drop]
        omega
      have hh := List.head_drop hne2
      exact hh ▸ List.head_mem hne2
    exact hdisj hx1 hx2
  · intro hle
    have h1 : l.take k = l.take (min k l.length) := List.take_eq_take.2 (by omega)
    have h2 : l.length - k = l.length - min k l.length := by omega
    rw [h1, h2]
    exact List.disjoint_take_drop hnd (by omega)

/-- On a well-formed frame with a usable period, the returns series has one
entry per symbol and carries the symbols in column order. -/
theorem seriesReturns_shape (df : PriceFrame) (p : Nat)
    (hr : df.rows ≠ []) (hw : ∀ r ∈ df.rows, r.length = df.symbols.length)
    (hp1 : 1 ≤ p) (hp2 : p ≤ df.rows.length) :
    (seriesReturns df p).length = df.symbols.length ∧
    (seriesReturns df p).map Prod.fst = df.symbols := by
  have hpos : 0 < df.rows.length := List.length_pos.2 hr
  have h1 : df.rows.length - 1 < df.rows.length := by omega
  have h2 : df.rows.length - p < df.rows.length := by omega
  have e1 : df.lastRow = df.rows[df.rows.length - 1] := by
    simp only [PriceFrame.lastRow]
    exact List.getD_eq_getElem _ _ h1
  have e2 : df.rowFromEnd p = df.rows[df.rows.length - p] := by
    simp only [PriceFrame.rowFromEnd]
    exact List.getD_eq_getElem _ _ h2
  have l1 : df.lastRow.length = df.symbols.length := by
    rw [e1]
    exact hw _ (List.getElem_mem h1)
  have l2 : (df.rowFromEnd p).length = df.symbols.length := by
    rw [e2]
    exact hw _ (List.getElem_mem h2)
  constructor
  · simp [seriesReturns, List.length_zip, l1, l2]
  · apply List.map_fst_zip
    simp [List.length_zip, l1, l2]

/-- The long and short lists produced by the guide strategy, written through
the sorted symbol ranking. -/
theorem strategy_eq_segments (df : PriceFrame) (cfg : ConfigDict) :
    (strategy df cfg).1 =
      (((seriesReturns df (cfg.strategy_config.minutes.headD 0)).insertionSort
        retGE).map Prod.fst).take cfg.strategy_config.maximum_candidates ∧
    (strategy df cfg).2 =
      (((seriesReturns df (cfg.strategy_config.minutes.headD 0)).insertionSort
        retGE).map Prod.fst).drop
        (((seriesReturns df (cfg.strategy_config.minutes.headD 0)).insertionSort
          retGE).length - cfg.strategy_config.maximum_candidates) := by
  constructor
  · simp [strategy, List.map_take]
  · simp [strategy, List.map_drop]

/-! ### Claim theorems -/

/-- Claim C2: the guide example strategy ranks the symbols by
df.iloc[-1] / df.iloc[-period] - 1 in descending order, with the period taken
from the minutes configuration, and returns the top maximum_candidates symbols
of the ranking as the long list and the bottom maximum_candidates symbols as
the short list. -/
theorem c2_strategy_ranking (df : PriceFrame) (cfg : ConfigDict)
    (hm : cfg.strategy_config.minutes ≠ [])
    (hp1 : 1 ≤ cfg.strategy_config.minutes.headD 0)
    (hp2 : cfg.strategy_config.minutes.headD 0 ≤ df.rows.length) :
    ∃ ranking : List (String × ℚ),
      ranking.Perm (seriesReturns df (cfg.strategy_config.minutes.headD 0)) ∧
      List.Sorted retGE ranking ∧
      (strategy df cfg).1 =
        (ranking.take cfg.strategy_config.maximum_candidates).map Prod.fst ∧
      (strategy df cfg).2 =
        (ranking.drop (ranking.length - cfg.strategy_config.maximum_candidates)).map
          Prod.fst :=
  ⟨(seriesReturns df (cfg.strategy_config.minutes.headD 0)).insertionSort retGE,
    List.perm_insertionSort retGE _, List.sorted_insertionSort retGE _, rfl, rfl⟩

/-- Witness for C2 at a concrete two-symbol frame. -/
theorem c2_strategy_ranking_witness :
    (demoCfg.strategy_config.minutes ≠ [] ∧
      1 ≤ demoCfg.strategy_config.minutes.headD 0 ∧
      demoCfg.strategy_config.minutes.headD 0 ≤ demoFrame.rows.length) ∧
    (∃ ranking : List (String × ℚ),
      ranking.Perm (seriesReturns demoFrame (demoCfg.strategy_config.minutes.headD 0)) ∧
      List.Sorted retGE ranking ∧
      (strategy demoFrame demoCfg).1 =
        (ranking.take demoCfg.strategy_config.maximum_candidates).map Prod.fst ∧
      (strategy demoFrame demoCfg).2 =
        (ranking.drop (ranking.length - demoCfg.strategy_config.maximum_candidates)).map
          Prod.fst) :=
  ⟨⟨by decide, by decide, by decide⟩,
    c2_strategy_ranking demoFrame demoCfg (by decide) (by decide) (by decide)⟩

/-- Claim C9: both candidate lists have min k n symbols, and they are disjoint
exactly when 2 * min k n is at most n; with a universe smaller than twice the
candidate count some symbol appears in both lists. -/
theorem c9_strategy_overlap (df : PriceFrame) (cfg : ConfigDict)
    (hwf : df.WF)
    (hp1 : 1 ≤ cfg.strategy_config.minutes.headD 0)
    (hp2 : cfg.strategy_config.minutes.headD 0 ≤ df.rows.length) :
    (strategy df cfg).1.length =
      min cfg.strategy_config.maximum_candidates df.symbols.length ∧
    (strategy df cfg).2.length =
      min cfg.strategy_config.maximum_candidates df.symbols.length ∧
    (List.Disjoint (strategy df cfg).1 (strategy df cfg).2 ↔
      2 * min cfg.strategy_config.maximum_candidates df.symbols.length ≤
        df.symbols.length) := by
  obtain ⟨hr, hw, hnd⟩ := hwf
  obtain ⟨hsr, hfst⟩ := seriesReturns_shape df
    (cfg.strategy_config.minutes.headD 0) hr hw hp1 hp2
  obtain ⟨hs1, hs2⟩ := strategy_eq_segments df cfg
  have hperm : ((seriesReturns df (cfg.strategy_config.minutes.headD 0)).insertionSort
      retGE).Perm (seriesReturns df (cfg.strategy_config.minutes.headD 0)) :=
    List.perm_insertionSort retGE _
  have hmfst : (((seriesReturns df (cfg.strategy_config.minutes.headD 0)).insertionSort
      retGE).map Prod.fst).Perm df.symbols := by
    have := hperm.map Prod.fst
    rwa [hfst] at this
  have hlnodup : (((seriesReturns df (cfg.strategy_config.minutes.headD 0)).insertionSort
      retGE).map Prod.fst).Nodup := hmfst.nodup_iff.2 hnd
  have hllen : (((seriesReturns df (cfg.strategy_config.minutes.headD 0)).insertionSort
      retGE).map Prod.fst).length = df.symbols.length := by
    rw [List.length_map, hperm.length_eq, hsr]
  have hslen : ((seriesReturns df (cfg.strategy_config.minutes.headD 0)).insertionSort
      retGE).length = df.symbols.length := by
    rw [hperm.length_eq, hsr]
  obtain ⟨hlen1, hlen2, hdisj⟩ := take_drop_segments
    (((seriesReturns df (cfg.strategy_config.minutes.headD 0)).insertionSort
      retGE).map Prod.fst) cfg.strategy_config.maximum_candidates hlnodup
  have hs2b : (strategy df cfg).2 =
      (((seriesReturns df (cfg.strategy_config.minutes.headD 0)).insertionSort
        retGE).map Prod.fst).drop
        ((((seriesReturns df (cfg.strategy_config.minutes.headD 0)).insertionSort
          retGE).map Prod.fst).length - cfg.strategy_config.maximum_candidates) := by
    rw [hs2, List.length_map]
  rw [hllen] at hlen1 hlen2 hdisj hs2b
  exact ⟨by rw [hs1]; exact hlen1, by rw [hs2b]; exact hlen2,
    by rw [hs1, hs2b]; exact hdisj⟩

/-- Witness for C9 at a concrete two-symbol frame with one candidate. -/
theorem c9_strategy_overlap_witness :
    (demoFrame.WF ∧ 1 ≤ demoCfg.strategy_config.minutes.headD 0 ∧
      demoCfg.strategy_config.minutes.headD 0 ≤ demoFrame.rows.length) ∧
    ((strategy demoFrame demoCfg).1.length =
      min demoCfg.strategy_config.maximum_candidates demoFrame.symbols.length ∧
    (strategy demoFrame demoCfg).2.length =
      min demoCfg.strategy_config.maximum_candidates demoFrame.symbols.length ∧
    (List.Disjoint (strategy demoFrame demoCfg).1 (strategy demoFrame demoCfg).2 ↔
      2 * min demoCfg.strategy_config.maximum_candidates demoFrame.symbols.length ≤
        demoFrame.symbols.length)) :=
  ⟨⟨by decide, by decide, by decide⟩,
    c9_strategy_overlap demoFrame demoCfg (by decide) (by decide) (by decide)⟩

/-- Claim C3: a run-system response carrying the session fields flat at the
top level, or nested under the message error wrapper, is normalized by the
cell into the one session record holding the session identifier and the
dashboard reference. -/
theorem c3_run_system_both_shapes (r : RunSystemResponse) (sid dash : String)
    (h : (r.session_id = some sid ∧ r.dashboard_url = some dash) ∨
      ((r.session_id = none ∨ r.dashboard_url = none) ∧
        ∃ m, r.message = some m ∧ (∃ e, m.message = some e) ∧
          m.session_id = some sid ∧ m.dashboard_url = some dash)) :
    extractSession r = .ok { session_id := sid, dashboard := dash } := by
  rcases h with ⟨h1, h2⟩ | ⟨hflat, m, hm, ⟨e, he⟩, hs, hd⟩
  · simp [extractSession, h1, h2]
  · rcases hsid : r.session_id with _ | s0 <;>
      rcases hdash : r.dashboard_url with _ | d0 <;>
      simp_all [extractSession]

/-- Witness for C3 at a flat response. -/
theorem c3_run_system_witness :
    ((flatResponse.session_id = some "sid-1" ∧
        flatResponse.dashboard_url = some "https://dash") ∨
      ((flatResponse.session_id = none ∨ flatResponse.dashboard_url = none) ∧
        ∃ m, flatResponse.message = some m ∧ (∃ e, m.message = some e) ∧
          m.session_id = some "sid-1" ∧ m.dashboard_url = some "https://dash")) ∧
    extractSession flatResponse = .ok { session_id := "sid-1", dashboard := "https://dash" } :=
  ⟨Or.inl ⟨rfl, rfl⟩,
    c3_run_system_both_shapes flatResponse "sid-1" "https://dash" (Or.inl ⟨rfl, rfl⟩)⟩

/-- Claim C6: all_positions returns the fetched position records verbatim as
the dataframe, prints the liquidation success message exactly when that list
is empty, and issues exactly one request, the position query, with no retry
and no liquidation command. -/
theorem c6_all_positions_verbatim (USER_KEY user_key productType marginCoin : String)
    (responseData : List PositionRow) :
    (all_positions USER_KEY user_key productType marginCoin responseData).df =
      responseData ∧
    ((all_positions USER_KEY user_key productType marginCoin responseData).printed =
        ["Everything has been liquidated"] ↔ responseData = []) ∧
    (all_positions USER_KEY user_key productType marginCoin responseData).requests =
      [⟨"https://bitgettrader.fin.cloud.ainode.ai/" ++ USER_KEY
          ++ "/future/position/all-positions", USER_KEY, productType,
        asciiUpper marginCoin⟩] := by
  refine ⟨rfl, ?_, rfl⟩
  by_cases h : responseData = [] <;> simp [all_positions, h]

/-- Claim C10: the result of all_positions does not depend on its user_key
argument, and marginCoin arguments with the same uppercasing give the same
result, because URL and payload are built from the module-level USER_KEY and
the uppercased marginCoin. -/
theorem c10_all_positions_key_independent
    (USER_KEY k1 k2 productType mc1 mc2 : String) (responseData : List PositionRow)
    (hmc : asciiUpper mc1 = asciiUpper mc2) :
    all_positions USER_KEY k1 productType mc1 responseData =
      all_positions USER_KEY k2 productType mc2 responseData := by
  simp [all_positions, hmc]

/-- Witness for C10 with distinct user keys and casings. -/
theorem c10_all_positions_witness :
    asciiUpper "usdt" = asciiUpper "USDT" ∧
    all_positions "K" "alice" "susdt-futures" "usdt" [] =
      all_positions "K" "bob" "susdt-futures" "USDT" [] :=
  ⟨by decide,
    c10_all_positions_key_independent "K" "alice" "bob" "susdt-futures" "usdt" "USDT" []
      (by decide)⟩

/-- Claim C7: on a successful backtest response with html report type and
non-empty html content exactly one report file is written, into the caller
directory (created when missing), named from the timestamp and the strategy
name; with logs_only report type or absent html content nothing is written. -/
theorem c7_report_persistence (path strategy_name nowStr : String) (dirExists : Bool)
    (resp : BacktestResponse) :
    (∀ h, resp.report_type = some "html" → resp.html_content = some h → h ≠ "" →
      handleReport path strategy_name nowStr dirExists resp =
        { madeDir := !dirExists,
          writes := [⟨path, nowStr ++ "_" ++ strategy_name ++ "_backtest_report.html",
            h⟩] }) ∧
    ((resp.report_type = some "logs_only" ∨ resp.html_content = none) →
      (handleReport path strategy_name nowStr dirExists resp).writes = []) := by
  constructor
  · intro h hrt hhc hne
    simp [handleReport, hrt, hhc, hne]
  · intro hcase
    rcases hcase with hrt | hhc
    · simp [handleReport, hrt]
    · by_cases h2 : resp.report_type = some "html" <;> simp [handleReport, hhc, h2]

/-- Witness for C7 at a concrete html response. -/
theorem c7_report_persistence_witness :
    (htmlResponse.report_type = some "html" ∧
      htmlResponse.html_content = some "<html>ok</html>" ∧
      ("<html>ok</html>" : String) ≠ "") ∧
    handleReport "reports" "multi_period_momentum" "2025-03-10 00:00" false htmlResponse =
      { madeDir := !false,
        writes := [⟨"reports",
          "2025-03-10 00:00" ++ "_" ++ "multi_period_momentum" ++ "_backtest_report.html",
          "<html>ok</html>"⟩] } :=
  ⟨⟨rfl, rfl, by decide⟩,
    (c7_report_persistence "reports" "multi_period_momentum" "2025-03-10 00:00" false
      htmlResponse).1 "<html>ok</html>" rfl rfl (by decide)⟩

/-- Claim C8: equal allocation gives every symbol of a non-empty universe the
weight 1/n and the weights sum to one within 1e-9. -/
theorem c8_equal_allocation (U : List String) (hU : U ≠ []) :
    (∀ p ∈ equalAllocate U, p.2 = 1 / (U.length : ℚ)) ∧
    |((equalAllocate U).map Prod.snd).sum - 1| ≤ 1 / 1000000000 := by
  have hn : (U.length : ℚ) ≠ 0 := Nat.cast_ne_zero.2 (List.length_pos.2 hU).ne'
  constructor
  · intro p hp
    rcases List.mem_map.1 hp with ⟨s, hs, rfl⟩
    rfl
  · have hmap : (equalAllocate U).map Prod.snd = U.map (fun _ => 1 / (U.length : ℚ)) := by
      simp only [equalAllocate, List.map_map]
      rfl
    rw [hmap, sum_map_const]
    have hone : (U.length : ℚ) * (1 / (U.length : ℚ)) = 1 := by
      field_simp
    rw [hone]
    norm_num

/-- Witness for C8 at the three-symbol universe of the spec scenario. -/
theorem c8_equal_allocation_witness :
    (["BTCUSDT", "ETHUSDT", "XRPUSDT"] : List String) ≠ [] ∧
    ((∀ p ∈ equalAllocate ["BTCUSDT", "ETHUSDT", "XRPUSDT"],
        p.2 = 1 / ((["BTCUSDT", "ETHUSDT", "XRPUSDT"] : List String).length : ℚ)) ∧
      |((equalAllocate ["BTCUSDT", "ETHUSDT", "XRPUSDT"]).map Prod.snd).sum - 1| ≤
        1 / 1000000000) :=
  ⟨by decide, c8_equal_allocation ["BTCUSDT", "ETHUSDT", "XRPUSDT"] (by decide)⟩

/-- Claim C1 counterexample: a custom weight mapping whose only key lies
outside the symbol universe and whose values sum to 97/100 violates every part
of the claimed validity condition except presence, yet the configuration is
accepted locally and the request is posted. -/
theorem c1_custom_weights_counterexample :
    acceptsLocally "DK" cexSettings = true ∧
    specCustomWeightsOK cexSettings.symbols cexSettings.custom_weights = false := by
  constructor <;> rfl

/-- Claim C1 amended: with the custom weight method the configuration is
accepted for upload exactly when custom_weights is non-empty, the ValueError
firing before any network request otherwise; no key membership, sign or sum
check runs locally. -/
theorem c1_custom_weights_presence_only (DATA_KEY : String) (s : BacktestSettings)
    (h : s.weight_method = "custom") :
    acceptsLocally DATA_KEY s = true ↔ s.custom_weights ≠ [] := by
  by_cases hc : s.custom_weights = [] <;>
    simp [acceptsLocally, buildBacktestRequest, h, hc]

/-- Witness for the amended C1 at the concrete notebook configuration. -/
theorem c1_custom_weights_witness :
    cexSettings.weight_method = "custom" ∧
    (acceptsLocally "DK" cexSettings = true ↔ cexSettings.custom_weights ≠ []) :=
  ⟨rfl, c1_custom_weights_presence_only "DK" cexSettings rfl⟩

/-- Claim C5 counterexample: the interval 5 lies outside the set 6,12,24,72
yet the configuration is accepted locally and the posted payload carries 5. -/
theorem c5_interval_counterexample :
    acceptsLocally "DK" (setInterval cexIntervalSettings 5) = true ∧
    (buildBacktestRequest "DK" (setInterval cexIntervalSettings 5)).toOption.map
        (fun p => p.strategy_config.rebalancing_config.rebalancing_interval_hours) =
      some 5 ∧
    (5 : Int) ∉ allowedIntervals := by
  refine ⟨rfl, rfl, by decide⟩

/-- Claim C5 amended: rebalancing_interval_hours is never validated locally:
replacing the interval with any value leaves local acceptance unchanged, and
an accepted payload carries the configured interval verbatim; the allowed set
appears only in a comment. -/
theorem c5_interval_not_validated (DATA_KEY : String) (s : BacktestSettings) (h : Int) :
    acceptsLocally DATA_KEY (setInterval s h) = acceptsLocally DATA_KEY s ∧
    (buildBacktestRequest DATA_KEY (setInterval s h)).toOption.map
        (fun p => p.strategy_config.rebalancing_config.rebalancing_interval_hours) =
      (buildBacktestRequest DATA_KEY (setInterval s h)).toOption.map (fun _ => h) := by
  constructor
  · by_cases hm : s.weight_method = "custom" <;>
      by_cases hc : s.custom_weights = [] <;>
        simp [acceptsLocally, buildBacktestRequest, setInterval, hm, hc]
  · by_cases hm : s.weight_method = "custom" <;>
      by_cases hc : s.custom_weights = [] <;>
        simp [buildBacktestRequest, setInterval, Except.toOption, hm, hc]

/-- Claim C4 counterexample: a strategy returning overlapping long and short
lists violates the claimed contract, yet the upload cell still issues the
request carrying exactly that artifact; no ContractViolation path exists. -/
theorem c4_upload_counterexample :
    specContractOK ["BTCUSDT", "ETHUSDT"]
      (overlappingStrategy.behavior demoFrame demoCfg) = false ∧
    uploadStrategyCell "https://zipline.fin.cloud.ainode.ai/UK/" "future"
        overlappingStrategy =
      { url := "https://zipline.fin.cloud.ainode.ai/UK/" ++ "upload/strategy/",
        tradeType := "future", file := overlappingStrategy } :=
  ⟨rfl, rfl⟩

/-- Claim C4 amended: the upload cell performs no local validation of the
strategy callable: even an artifact whose callable violates the claimed
contract on some input is submitted unchanged to the remote engine;
verification is delegated to the server. -/
theorem c4_upload_unconditional (rootUrl tradeType : String)
    (uni : List String) (df : PriceFrame) (cfg : ConfigDict) (f : StrategyFile)
    (hbad : specContractOK uni (f.behavior df cfg) = false) :
    uploadStrategyCell rootUrl tradeType f =
      { url := rootUrl ++ "upload/strategy/", tradeType := tradeType, file := f } :=
  rfl

/-- Witness for the amended C4 at the overlapping strategy. -/
theorem c4_upload_unconditional_witness :
    specContractOK ["BTCUSDT"]
      (overlappingStrategy.behavior demoFrame demoCfg) = false ∧
    uploadStrategyCell "https://r/" "spot" overlappingStrategy =
      { url := "https://r/" ++ "upload/strategy/", tradeType := "spot",
        file := overlappingStrategy } :=
  ⟨rfl, c4_upload_unconditional "https://r/" "spot" ["BTCUSDT"] demoFrame demoCfg
    overlappingStrategy rfl⟩

end NbRunner
